import Mathlib

/-!
Verification of the voice-analysis core of AI-EQ-Assistant
(`analyze_voice.py`): the breathiness indicator, the voice classifier
`categorize_voice`, and the EQ recommendation engine
`generate_eq_recommendations`.  Python floats are embedded as rationals,
Python `round` (banker's rounding, half to even) as `pyRound`, Python
substring containment (`in` on strings) as `strContains`, and dict-shaped
records as Lean structures.
-/

/-- Python `round(x)`: round half to even, returning an integer. -/
def pyRound (q : ℚ) : ℤ :=
  let f : ℤ := ⌊q⌋
  let r : ℚ := q - f
  if r < 1/2 then f
  else if 1/2 < r then f + 1
  else if f % 2 = 0 then f else f + 1

/-- Python `"{x:.0f}"`: format with zero decimal places (round half to even). -/
def fmt0 (q : ℚ) : String := toString (pyRound q)

/-- Python `needle in haystack` on strings: substring containment. -/
def strContains (haystack needle : String) : Bool :=
  decide (needle.toList <:+: haystack.toList)

/-- The dict returned by `categorize_voice`. -/
structure VoiceChars where
  voice_type : String
  voice_range : String
  brightness : String
deriving DecidableEq

/-- One entry of the `eq_bands` list built by `generate_eq_recommendations`:
`type`, `frequency_hz`, optional `gain_db` descriptor, optional `q`,
`description`.  (`gain_db` and `q` are absent on the high-pass band, and
`q` is absent on the high-shelf band, hence `Option`.) -/
structure EQBand where
  type : String
  frequency_hz : ℤ
  gain_db : Option String
  q : Option ℚ
  description : String
deriving DecidableEq

/-- The accent record produced by the external accent classifier, reduced to
the only field `generate_eq_recommendations` reads.  `primary_accent = none`
models a dict with no `"primary_accent"` key, read via
`accent_analysis.get("primary_accent", "")`. -/
structure AccentRecord where
  primary_accent : Option String
deriving DecidableEq

/-- The dict returned by `generate_eq_recommendations`. -/
structure EQPlan where
  summary : String
  recommendations : List String
  eq_bands : List EQBand
  accent_specific_tips : List String
  processing_suggestions : List String
deriving DecidableEq

/-- `analyze_voice.py`, line 157: the `breathiness_indicator` field of
`voice_quality`, computed from the mean zero-crossing rate. -/
def breathiness_indicator (zcr_mean : ℚ) : String :=
  if zcr_mean > 1/10 then "high"
  else if zcr_mean > 1/20 then "moderate"
  else "low"

/-- `analyze_voice.py`, `categorize_voice` (lines 168-198).  The
`zcr_mean` argument is accepted and ignored, exactly as in the source. -/
def categorize_voice (f0_mean centroid_mean _zcr_mean : ℚ) : VoiceChars :=
  let tr : String × String :=
    if f0_mean < 130 then ("bass", "low")
    else if f0_mean < 180 then
      ((if f0_mean < 155 then "baritone" else "tenor"), "low-mid")
    else if f0_mean < 250 then
      ((if f0_mean < 220 then "alto" else "mezzo-soprano"), "mid")
    else ("soprano", "high")
  let brightness : String :=
    if centroid_mean < 1500 then "dark/warm"
    else if centroid_mean < 2500 then "balanced"
    else if centroid_mean < 3500 then "bright"
    else "very bright/sibilant"
  { voice_type := tr.1, voice_range := tr.2, brightness := brightness }

/-- `analyze_voice.py`, `generate_eq_recommendations` (lines 201-306).
Inputs: `f0` is `audio_analysis["fundamental_frequency"]["mean_hz"]`,
`breathiness` is `audio_analysis["voice_quality"]["breathiness_indicator"]`,
`voice_chars` is `audio_analysis["voice_characteristics"]`, and
`accent_analysis` carries `primary_accent`.  (The source also reads the
spectral centroid into a local variable and never uses it.) -/
def generate_eq_recommendations (f0 : ℚ) (breathiness : String)
    (voice_chars : VoiceChars) (accent_analysis : AccentRecord) : EQPlan :=
  -- Low-end recommendations (high-pass filter, fundamental boost)
  let lowEnd : List String × List EQBand :=
    if f0 > 0 then
      let hp_freq : ℚ := max 60 (f0 * (1/2))
      let recs1 : List String :=
        [s!"Apply high-pass filter at {fmt0 hp_freq} Hz to remove rumble without affecting voice fundamentals"]
      let bands1 : List EQBand :=
        [⟨"high-pass", pyRound hp_freq, none, none, "Remove sub-bass rumble"⟩]
      if voice_chars.voice_range = "low" ∨ voice_chars.voice_range = "low-mid" then
        (recs1 ++ [s!"Consider subtle boost (+1-2 dB) around {fmt0 f0} Hz to add warmth and body"],
         bands1 ++ [⟨"bell", pyRound f0, some "+1 to +2", some (3/2), "Add warmth and body"⟩])
      else (recs1, bands1)
    else ([], [])
  -- Mid-range presence
  let presence_freq : ℤ := if f0 < 200 then 2500 else 3000
  let presence : List String × List EQBand :=
    ([s!"Boost presence around {presence_freq} Hz (+2-3 dB) for clarity and intelligibility"],
     [⟨"bell", presence_freq, some "+2 to +3", some 1, "Enhance presence and clarity"⟩])
  -- Brightness control
  let bright : List String × List EQBand :=
    if voice_chars.brightness = "very bright/sibilant" then
      (["Apply de-esser or reduce 5-8 kHz range (-2-4 dB) to control sibilance"],
       [⟨"bell", 6500, some "-2 to -4", some 2, "Control sibilance"⟩])
    else if voice_chars.brightness = "dark/warm" then
      (["Add air and sparkle with a gentle high shelf boost (+2-3 dB) above 10 kHz"],
       [⟨"high-shelf", 10000, some "+2 to +3", none, "Add air and sparkle"⟩])
    else ([], [])
  -- Breathiness handling
  let breathy : List String × List EQBand :=
    if breathiness = "high" then
      (["Consider reducing 4-6 kHz slightly (-1-2 dB) to manage breathiness, or embrace it for intimacy"],
       [⟨"bell", 5000, some "-1 to -2", some (3/2), "Control breathiness (optional)"⟩])
    else ([], [])
  -- Mud reduction
  let mud : List String × List EQBand :=
    (["Cut 200-400 Hz range slightly (-1-3 dB) if voice sounds muddy or boxy"],
     [⟨"bell", 300, some "-1 to -3", some 1, "Reduce muddiness (if needed)"⟩])
  -- Accent-specific recommendations
  let accent : String := (accent_analysis.primary_accent.getD "").toLower
  let accent_tips : List String :=
    if strContains accent "irish" || strContains accent "celtic" then
      ["Irish accents often have melodic qualities - preserve natural intonation by avoiding heavy compression",
       "The characteristic \x27lilt\x27 sits in the 1-3 kHz range - be careful not to over-boost this region"]
    else if strContains accent "british" || strContains accent "english" then
      ["RP/British accents may benefit from slight presence boost for clarity"]
    else if strContains accent "american" then
      ["American accents often have strong \x27r\x27 sounds - watch the 2-3 kHz region"]
    else []
  { summary := s!"Voice profile: {voice_chars.voice_type} with {voice_chars.brightness} tonal quality",
    recommendations := lowEnd.1 ++ presence.1 ++ bright.1 ++ breathy.1 ++ mud.1,
    eq_bands := lowEnd.2 ++ presence.2 ++ bright.2 ++ breathy.2 ++ mud.2,
    accent_specific_tips := accent_tips,
    processing_suggestions :=
      ["Apply subtle compression (2:1 to 4:1 rat\x69o) for consistent levels",
       "Use a noise gate if there\x27s background noise between phrases",
       "Consider gentle saturat\x69on/warmth for added character"] }

/-! ### Per-rule views of the recommendation engine

Each of the six EQ-band rules of `generate_eq_recommendations` is given a
name, together with the condition under which it fires, so that the fixed
rule-firing order can be stated as one equation. -/

/-- Rule 1: the high-pass band (fires iff mean pitch > 0). -/
def hpBand (f0 : ℚ) : EQBand :=
  ⟨"high-pass", pyRound (max 60 (f0 * (1/2))), none, none, "Remove sub-bass rumble"⟩

/-- Rule 2: the fundamental-warmth bell. -/
def warmthBand (f0 : ℚ) : EQBand :=
  ⟨"bell", pyRound f0, some "+1 to +2", some (3/2), "Add warmth and body"⟩

/-- Rule 3: the presence bell (always fires). -/
def presenceBand (f0 : ℚ) : EQBand :=
  ⟨"bell", if f0 < 200 then 2500 else 3000, some "+2 to +3", some 1,
   "Enhance presence and clarity"⟩

/-- Rule 4a: the sibilance-control cut bell. -/
def sibilanceBand : EQBand := ⟨"bell", 6500, some "-2 to -4", some 2, "Control sibilance"⟩

/-- Rule 4b: the air/sparkle high-shelf. -/
def airShelfBand : EQBand :=
  ⟨"high-shelf", 10000, some "+2 to +3", none, "Add air and sparkle"⟩

/-- Rule 5: the breathiness-control bell. -/
def breathinessBand : EQBand :=
  ⟨"bell", 5000, some "-1 to -2", some (3/2), "Control breathiness (optional)"⟩

/-- Rule 6: the mud-reduction bell (always fires). -/
def mudBand : EQBand := ⟨"bell", 300, some "-1 to -3", some 1, "Reduce muddiness (if needed)"⟩

/-- Rule 1 as an optional band: fires iff mean pitch > 0. -/
def hpOpt (f0 : ℚ) : Option EQBand :=
  if f0 > 0 then some (hpBand f0) else none

/-- Rule 2 as an optional band: fires iff mean pitch > 0 and the voice range
is low or low-mid. -/
def warmthOpt (f0 : ℚ) (vc : VoiceChars) : Option EQBand :=
  if f0 > 0 ∧ (vc.voice_range = "low" ∨ vc.voice_range = "low-mid") then
    some (warmthBand f0)
  else none

/-- Rule 4 as an optional band: a single decision over
{none, sibilance-cut, air-shelf}, exclusive on `brightness`. -/
def brightOpt (vc : VoiceChars) : Option EQBand :=
  if vc.brightness = "very bright/sibilant" then some sibilanceBand
  else if vc.brightness = "dark/warm" then some airShelfBand
  else none

/-- Rule 5 as an optional band: fires iff the breathiness indicator is high. -/
def breathyOpt (breathiness : String) : Option EQBand :=
  if breathiness = "high" then some breathinessBand else none

/-- The six EQ-band rules, in their fixed firing order. -/
def ruleBands (f0 : ℚ) (breathiness : String) (vc : VoiceChars) : List (Option EQBand) :=
  [hpOpt f0, warmthOpt f0 vc, some (presenceBand f0), brightOpt vc,
   breathyOpt breathiness, some mudBand]

/-- The three fixed processing suggestions. -/
def processingSuggestions : List String :=
  ["Apply subtle compression (2:1 to 4:1 rat\x69o) for consistent levels",
   "Use a noise gate if there\x27s background noise between phrases",
   "Consider gentle saturat\x69on/warmth for added character"]

/-- Central characterization: `eq_bands` is exactly the list of fired rules,
in the fixed firing order. -/
lemma gen_eq_bands (f0 : ℚ) (breathiness : String) (vc : VoiceChars)
    (acc : AccentRecord) :
    (generate_eq_recommendations f0 breathiness vc acc).eq_bands =
      (ruleBands f0 breathiness vc).reduceOption := by
  by_cases h1 : f0 > 0 <;>
    by_cases h2 : vc.voice_range = "low" ∨ vc.voice_range = "low-mid" <;>
    by_cases h3 : vc.brightness = "very bright/sibilant" <;>
    by_cases h4 : vc.brightness = "dark/warm" <;>
    by_cases h5 : breathiness = "high" <;>
    simp_all [generate_eq_recommendations, ruleBands, hpOpt, warmthOpt, brightOpt,
      breathyOpt, hpBand, warmthBand, presenceBand, sibilanceBand, airShelfBand,
      breathinessBand, mudBand, List.reduceOption] <;>
    rw [if_neg (not_lt.2 h1)]

/-- The `processing_suggestions` field is the fixed constant list. -/
lemma gen_processing (f0 : ℚ) (breathiness : String) (vc : VoiceChars)
    (acc : AccentRecord) :
    (generate_eq_recommendations f0 breathiness vc acc).processing_suggestions =
      processingSuggestions := rfl

/-- The accent keyword table of rule 7: keyword groups paired with their
tips, in source order (irish/celtic, british/english, american). -/
def accentKeywordTable : List (List String × List String) :=
  [(["irish", "celtic"],
    ["Irish accents often have melodic qualities - preserve natural intonation by avoiding heavy compression",
     "The characteristic \x27lilt\x27 sits in the 1-3 kHz range - be careful not to over-boost this region"]),
   (["british", "english"],
    ["RP/British accents may benefit from slight presence boost for clarity"]),
   (["american"],
    ["American accents often have strong \x27r\x27 sounds - watch the 2-3 kHz region"])]

/-- First-match-wins lookup over the accent keyword table: the tips of the
first group one of whose keywords occurs in `a`, or `[]` if none matches. -/
def firstMatchingTips (a : String) : List String :=
  ((accentKeywordTable.find? (fun g => g.1.any (fun k => strContains a k))).map
    Prod.snd).getD []

/-! ### Claim theorems -/

/-- C3 counterexample: at mean zero-crossing rate exactly 0.05 the code
classifies breathiness as "low", not "moderate" as the claim states. -/
theorem breathiness_boundary_cex :
    breathiness_indicator (1/20) = "low" ∧
    ¬ breathiness_indicator (1/20) = "moderate" := by
  with_unfolding_all decide

/-- C3 (amended): breathiness is "high" iff z > 0.1, "moderate" iff
0.05 < z ≤ 0.1, and "low" iff z ≤ 0.05; the buckets are mutually exclusive
and exhaustive. -/
theorem breathiness_thresholds (z : ℚ) :
    (breathiness_indicator z = "high" ↔ 1/10 < z) ∧
    (breathiness_indicator z = "moderate" ↔ 1/20 < z ∧ z ≤ 1/10) ∧
    (breathiness_indicator z = "low" ↔ z ≤ 1/20) := by
  unfold breathiness_indicator
  split_ifs with h1 h2 <;> refine ⟨?_, ?_, ?_⟩ <;> simp_all
  all_goals linarith

/-- C4: `categorize_voice` is total and boundary-exact on mean pitch, with
half-open buckets whose boundary belongs to the higher bucket; in
particular 130 → baritone, 155 → tenor, 180 → alto, 220 → mezzo-soprano,
250 → soprano, and non-positive pitch falls in the lowest bucket. -/
theorem categorize_voice_total_boundary_exact (p c z : ℚ) :
    ((categorize_voice p c z).voice_type, (categorize_voice p c z).voice_range) =
      (if p < 130 then ("bass", "low")
       else if p < 155 then ("baritone", "low-mid")
       else if p < 180 then ("tenor", "low-mid")
       else if p < 220 then ("alto", "mid")
       else if p < 250 then ("mezzo-soprano", "mid")
       else ("soprano", "high")) ∧
    (categorize_voice 130 c z).voice_type = "baritone" ∧
    (categorize_voice 155 c z).voice_type = "tenor" ∧
    (categorize_voice 180 c z).voice_type = "alto" ∧
    (categorize_voice 220 c z).voice_type = "mezzo-soprano" ∧
    (categorize_voice 250 c z).voice_type = "soprano" := by
  refine ⟨?_, ?_, ?_, ?_, ?_, ?_⟩
  · unfold categorize_voice
    split_ifs <;> first | rfl | (exfalso; linarith)
  all_goals norm_num [categorize_voice]

/-- C1 counterexample: an accent string containing both a "british" and an
"american" fragment yields only the british/english tip, not the tips of
both groups — matching is exclusive, not non-exclusive as claimed. -/
theorem accent_tips_not_nonexclusive_cex :
    strContains "british american" "british" = true ∧
    strContains "british american" "american" = true ∧
    (generate_eq_recommendations 110 "low" ⟨"bass", "low", "balanced"⟩
        ⟨some "British American"⟩).accent_specific_tips =
      ["RP/British accents may benefit from slight presence boost for clarity"] := by
  with_unfolding_all decide

/-- C1 (amended): accent-tip matching is case-insensitive substring matching
of `primary_accent` against the keyword table, but exclusive and
first-match-wins in keyword-table order (irish/celtic, then
british/english, then american): only the first matching group's tips are
appended, and no match yields the empty list. -/
theorem accent_tips_exclusive_first_match (f0 : ℚ) (br : String)
    (vc : VoiceChars) (acc : AccentRecord) :
    (generate_eq_recommendations f0 br vc acc).accent_specific_tips =
      firstMatchingTips ((acc.primary_accent.getD "").toLower) := by
  cases h1 : strContains ((acc.primary_accent.getD "").toLower) "irish" <;>
    cases h2 : strContains ((acc.primary_accent.getD "").toLower) "celtic" <;>
    cases h3 : strContains ((acc.primary_accent.getD "").toLower) "british" <;>
    cases h4 : strContains ((acc.primary_accent.getD "").toLower) "english" <;>
    cases h5 : strContains ((acc.primary_accent.getD "").toLower) "american" <;>
    simp [generate_eq_recommendations, firstMatchingTips, accentKeywordTable,
      List.find?, List.any, h1, h2, h3, h4, h5]

/-- C5: for every input combination, `eq_bands` is exactly the list of
fired rules in the fixed rule-firing order — high-pass (if triggered),
fundamental warmth bell (if triggered), presence bell, brightness band (if
triggered), breathiness band (if triggered), mud-reduction bell. -/
theorem eq_bands_rule_order (f0 : ℚ) (br : String) (vc : VoiceChars)
    (acc : AccentRecord) :
    (generate_eq_recommendations f0 br vc acc).eq_bands =
      (ruleBands f0 br vc).reduceOption :=
  gen_eq_bands f0 br vc acc

/-- C6: `eq_bands` contains the 6500 Hz sibilance-cut bell iff brightness is
"very bright/sibilant", contains the 10000 Hz high-shelf iff brightness is
"dark/warm", and never contains both. -/
theorem brightness_band_mutually_exclusive (f0 : ℚ) (br : String)
    (vc : VoiceChars) (acc : AccentRecord) :
    (sibilanceBand ∈ (generate_eq_recommendations f0 br vc acc).eq_bands ↔
      vc.brightness = "very bright/sibilant") ∧
    (airShelfBand ∈ (generate_eq_recommendations f0 br vc acc).eq_bands ↔
      vc.brightness = "dark/warm") ∧
    ¬(sibilanceBand ∈ (generate_eq_recommendations f0 br vc acc).eq_bands ∧
      airShelfBand ∈ (generate_eq_recommendations f0 br vc acc).eq_bands) := by
  by_cases h1 : f0 > 0 <;>
    by_cases h2 : vc.voice_range = "low" ∨ vc.voice_range = "low-mid" <;>
    by_cases h3 : vc.brightness = "very bright/sibilant" <;>
    by_cases h4 : vc.brightness = "dark/warm" <;>
    by_cases h5 : br = "high" <;>
    simp_all [generate_eq_recommendations, hpBand, warmthBand, presenceBand,
      sibilanceBand, airShelfBand, breathinessBand, mudBand] <;>
    simp [if_neg (not_lt.2 h1)]

/-- C7 counterexample: at mean pitch 121 the emitted high-pass cutoff is the
rounded value 60, while max(60, 0.5 × 121) = 60.5 — the claim's exact
equality fails. -/
theorem high_pass_cutoff_rounding_cex :
    (generate_eq_recommendations 121 "low" ⟨"bass", "low", "balanced"⟩
        ⟨some ""⟩).eq_bands.head? =
      some ⟨"high-pass", 60, none, none, "Remove sub-bass rumble"⟩ ∧
    ¬ ((60 : ℚ) = max 60 (121 * (1/2))) := by
  with_unfolding_all decide

/-- C7 (amended): the high-pass band is emitted iff mean pitch > 0, and its
stored cutoff is max(60, 0.5 × mean pitch) Hz rounded to the nearest
integer (half to even); for mean pitch 110 it is clamped to 60 Hz. -/
theorem high_pass_trigger_and_cutoff (f0 : ℚ) (br : String)
    (vc : VoiceChars) (acc : AccentRecord) :
    ((generate_eq_recommendations f0 br vc acc).eq_bands.filter
        (fun b => b.type == "high-pass") =
      if f0 > 0 then [hpBand f0] else []) ∧
    (hpBand f0).frequency_hz = pyRound (max 60 (f0 * (1/2))) ∧
    (hpBand 110).frequency_hz = 60 := by
  refine ⟨?_, rfl, by with_unfolding_all decide⟩
  by_cases h1 : f0 > 0 <;>
    by_cases h2 : vc.voice_range = "low" ∨ vc.voice_range = "low-mid" <;>
    by_cases h3 : vc.brightness = "very bright/sibilant" <;>
    by_cases h4 : vc.brightness = "dark/warm" <;>
    by_cases h5 : br = "high" <;>
    simp_all [generate_eq_recommendations, hpBand, warmthBand, presenceBand,
      sibilanceBand, airShelfBand, breathinessBand, mudBand, List.filter] <;>
    simp [if_neg (not_lt.2 h1)]

/-- C8: mean pitch 0 is not an error: the plan for a fully unvoiced
recording (voice_range is "low") has no high-pass band and no
fundamental-warmth bell, while the presence bell, the mud bell and the
three fixed processing suggestions still appear, and the brightness and
breathiness rules behave as for any other input. -/
theorem zero_pitch_degenerate_plan (c z : ℚ) (acc : AccentRecord) :
    (categorize_voice 0 c z).voice_range = "low" ∧
    "high-pass" ∉
      ((generate_eq_recommendations 0 (breathiness_indicator z)
        (categorize_voice 0 c z) acc).eq_bands.map EQBand.type) ∧
    some "+1 to +2" ∉
      ((generate_eq_recommendations 0 (breathiness_indicator z)
        (categorize_voice 0 c z) acc).eq_bands.map EQBand.gain_db) ∧
    presenceBand 0 ∈
      (generate_eq_recommendations 0 (breathiness_indicator z)
        (categorize_voice 0 c z) acc).eq_bands ∧
    mudBand ∈
      (generate_eq_recommendations 0 (breathiness_indicator z)
        (categorize_voice 0 c z) acc).eq_bands ∧
    (generate_eq_recommendations 0 (breathiness_indicator z)
        (categorize_voice 0 c z) acc).processing_suggestions =
      processingSuggestions ∧
    (sibilanceBand ∈
        (generate_eq_recommendations 0 (breathiness_indicator z)
          (categorize_voice 0 c z) acc).eq_bands ↔
      (categorize_voice 0 c z).brightness = "very bright/sibilant") ∧
    (breathinessBand ∈
        (generate_eq_recommendations 0 (breathiness_indicator z)
          (categorize_voice 0 c z) acc).eq_bands ↔
      breathiness_indicator z = "high") := by
  have hvr : (categorize_voice 0 c z).voice_range = "low" := by
    norm_num [categorize_voice]
  refine ⟨hvr, ?_, ?_, ?_, ?_, gen_processing 0 _ _ acc, ?_, ?_⟩ <;>
    (rw [gen_eq_bands]
     by_cases hb1 : (categorize_voice 0 c z).brightness = "very bright/sibilant" <;>
       by_cases hb2 : (categorize_voice 0 c z).brightness = "dark/warm" <;>
       by_cases hbr : breathiness_indicator z = "high" <;>
       simp_all [ruleBands, hpOpt, warmthOpt, brightOpt, breathyOpt,
         List.reduceOption, hpBand, warmthBand, presenceBand, sibilanceBand,
         airShelfBand, breathinessBand, mudBand])

/-- C9: the recommendations list and the eq_bands list always have equal
length, and that length lies between 2 and 6 inclusive. -/
theorem recommendations_eq_bands_length (f0 : ℚ) (br : String)
    (vc : VoiceChars) (acc : AccentRecord) :
    (generate_eq_recommendations f0 br vc acc).recommendations.length =
      (generate_eq_recommendations f0 br vc acc).eq_bands.length ∧
    2 ≤ (generate_eq_recommendations f0 br vc acc).eq_bands.length ∧
    (generate_eq_recommendations f0 br vc acc).eq_bands.length ≤ 6 := by
  by_cases h1 : f0 > 0 <;>
    by_cases h2 : vc.voice_range = "low" ∨ vc.voice_range = "low-mid" <;>
    by_cases h3 : vc.brightness = "very bright/sibilant" <;>
    by_cases h4 : vc.brightness = "dark/warm" <;>
    by_cases h5 : br = "high" <;>
    simp_all [generate_eq_recommendations] <;>
    simp [if_neg (not_lt.2 h1)]

/-- C10: a missing `primary_accent` field is not an error: it is read as the
empty string, no keyword group matches (so `accent_specific_tips = []`),
and every other field of the plan is unaffected by the accent record. -/
theorem missing_primary_accent_defaults (f0 : ℚ) (br : String)
    (vc : VoiceChars) (acc : AccentRecord) :
    (generate_eq_recommendations f0 br vc ⟨none⟩).accent_specific_tips = [] ∧
    generate_eq_recommendations f0 br vc ⟨none⟩ =
      generate_eq_recommendations f0 br vc ⟨some ""⟩ ∧
    (generate_eq_recommendations f0 br vc ⟨none⟩).summary =
      (generate_eq_recommendations f0 br vc acc).summary ∧
    (generate_eq_recommendations f0 br vc ⟨none⟩).recommendations =
      (generate_eq_recommendations f0 br vc acc).recommendations ∧
    (generate_eq_recommendations f0 br vc ⟨none⟩).eq_bands =
      (generate_eq_recommendations f0 br vc acc).eq_bands ∧
    (generate_eq_recommendations f0 br vc ⟨none⟩).processing_suggestions =
      (generate_eq_recommendations f0 br vc acc).processing_suggestions := by
  have hi : strContains "" "irish" = false := by with_unfolding_all decide
  have hc : strContains "" "celtic" = false := by with_unfolding_all decide
  have hb : strContains "" "british" = false := by with_unfolding_all decide
  have he : strContains "" "english" = false := by with_unfolding_all decide
  have ha : strContains "" "american" = false := by with_unfolding_all decide
  have htl : ("".toLower) = "" := by with_unfolding_all decide
  refine ⟨?_, rfl, rfl, rfl, rfl, rfl⟩
  simp [generate_eq_recommendations, Option.getD, htl, hi, hc, hb, he, ha]
